import Mathlib

/-!
Shallow embedding of `src/platform/android/src/style/sources/source.cpp`
(the Android JNI peer `mbgl::android::Source`) together with the external
collaborators it calls, modelled at their interface boundary.

Naming map (C++ → Lean):
* `mbgl::style::Source`                  → `CoreResource` (value with an
  instance tag `iid` standing for the C++ object address, the id string,
  the optional attribution, and the `peer` member slot)
* the style's source collection          → `Container` (a list of resources)
* `mbgl::android::Source`                → `Source` (the native peer state:
  `ownedSource` unique_ptr, the immutable id seen through the `source`
  reference, and the `javaPeer` global-reference field)
* `Source::addToMap` / `removeFromMap` / `~Source` / `getJavaPeer` /
  `getAttribution` → functions of the same name below.

Exceptions and jni failures are modelled with an explicit error value that
is carried next to the post-exception state (`StepResult`), because C++
stack unwinding leaves the partially-mutated object behind: an
`Except`-style result would erase exactly the states several claims are
about.
-/

namespace MapboxSource

/-- Error taxonomy of the lifecycle operations.  `alreadyAttached` is the
`std::runtime_error("Cannot add source twice")` thrown by `addToMap`;
`containerConflict` and `notAttached` are the failures of the external
container's add/remove operations; `fatalPeerSlotEmpty` stands for the
undefined behaviour of dereferencing the null result of `util::any_cast`
when the core source's `peer` slot does not hold a `unique_ptr<Source>`. -/
inductive SourceError where
  | alreadyAttached
  | containerConflict
  | notAttached
  | fatalPeerSlotEmpty
deriving Repr, DecidableEq

/-- Observable actions performed by the lifecycle operations, in program
order.  Events are only recorded once the corresponding C++ statement has
completed. -/
inductive Ev where
  | resourceInserted   -- `map.getStyle().addSource(...)` returned
  | backrefInstalled   -- `source.peer = std::unique_ptr<Source>(this)`
  | proxyRefUpgraded   -- `javaPeer = obj.NewGlobalRef(env)`
  | resourceRemoved    -- `map.getStyle().removeSource(...)` returned
  | backrefCleared     -- `any_cast<unique_ptr<Source>>(&peer)->release()`
  | proxyRefReleased   -- `javaPeer.release()`
  | handleZeroed       -- `javaPeer->Set(*env, nativePtrField, (jlong) 0)`
  | strongRefReleased  -- `javaPeer.reset()`
deriving Repr, DecidableEq

/-- `mbgl::style::Source`: the core resource.  `iid` is the instance tag
(the C++ object address, stable across `unique_ptr` moves), `sid` is
`getID()`, `attribution` is `getAttribution()`, and `peerSlot` records
whether the `peer` member currently holds an owning
`std::unique_ptr<mbgl::android::Source>`. -/
structure CoreResource where
  iid : Nat
  sid : String
  attribution : Option String
  peerSlot : Bool
deriving Repr, DecidableEq

/-- The style's source collection, keyed by `sid`. -/
abbrev Container := List CoreResource

/-- `mbgl::android::Source`: the native peer.  `ownedSource` is the
`unique_ptr<mbgl::style::Source>` member; `sourceId` is the id reachable
through the `source` reference member, which is bound at construction and
never reseated; `javaPeer` is the jni global-reference field, holding a
proxy object id when non-null. -/
structure Source where
  ownedSource : Option CoreResource
  sourceId : String
  javaPeer : Option Nat
deriving Repr, DecidableEq

/-- `Source::Source(JNIEnv&, unique_ptr<style::Source>)`: the jvm-initiated
constructor.  The peer takes exclusive ownership of the core source and
binds the `source` reference to it; `javaPeer` starts null. -/
def construct (iid : Nat) (sid : String) (attribution : Option String) : Source :=
  { ownedSource := some { iid := iid, sid := sid, attribution := attribution, peerSlot := false }
    sourceId := sid
    javaPeer := none }

/-- Does the container hold a resource under identity `i`? -/
def containsId : Container → String → Bool
  | [], _ => false
  | x :: xs, i => x.sid == i || containsId xs i

/-- Modelled from the spec: `mbgl::style::Style`'s add operation is not in
the sources; §6 specifies `addResource(ownedResource) -> Result<void,
ConflictError>`, failing if the identity is already present.  On failure
the owned argument has already been moved out of the caller, so it is
destroyed during unwinding (C++ semantics of the throwing call). -/
def addResource (c : Container) (r : CoreResource) : Except SourceError Container :=
  if containsId c r.sid then .error .containerConflict else .ok (c ++ [r])

/-- Modelled from the spec: `mbgl::style::Style`'s remove operation is not
in the sources; §6 specifies `removeResource(id) -> owned CoreResource`,
failing if the identity is absent (§7 names the surfaced error
`NotAttachedError`). -/
def removeResource : Container → String → Except SourceError (CoreResource × Container)
  | [], _ => .error .notAttached
  | x :: xs, i =>
    if x.sid == i then .ok (x, xs)
    else
      match removeResource xs i with
      | .ok (r, ys) => .ok (r, x :: ys)
      | .error e => .error e

/-- In-place update of the `peer` member of the resource stored under
identity `i` (the C++ `source` reference aliases the object wherever the
`unique_ptr` currently owning it lives). -/
def setPeerSlot (c : Container) (i : String) (b : Bool) : Container :=
  c.map fun x => if x.sid == i then { x with peerSlot := b } else x

/-- Result of one lifecycle operation: the error (if an exception escaped),
the peer and container as left behind (C++ unwinding does not roll back),
and the completed observable actions in program order. -/
structure StepResult where
  err : Option SourceError
  peer : Source
  container : Container
  events : List Ev
deriving Repr, DecidableEq

/-- `Source::addToMap` (source.cpp:63-86).  Guard: throws
"Cannot add source twice" when `ownedSource` is null.  Otherwise
`releaseCoreSource()` moves ownership out of the peer, the resource is
handed to the style, the back-reference is installed, and the java peer
reference is upgraded to a strong global reference. -/
def addToMap (p : Source) (obj : Nat) (c : Container) : StepResult :=
  match p.ownedSource with
  | none => { err := some .alreadyAttached, peer := p, container := c, events := [] }
  | some r =>
    -- `map.getStyle().addSource(releaseCoreSource())`: the argument is
    -- built first, so ownership leaves the peer before the style runs.
    let p1 : Source := { p with ownedSource := none }
    match addResource c r with
    | .error e =>
      -- the exception unwinds; the moved-out unique_ptr argument is
      -- destroyed, destroying the core source
      { err := some e, peer := p1, container := c, events := [] }
    | .ok c1 =>
      -- `source.peer = std::unique_ptr<Source>(this)`
      let c2 := setPeerSlot c1 r.sid true
      -- `javaPeer = obj.NewGlobalRef(env)`
      let p2 : Source := { p1 with javaPeer := some obj }
      { err := none, peer := p2, container := c2
        events := [.resourceInserted, .backrefInstalled, .proxyRefUpgraded] }

/-- `Source::removeFromMap` (source.cpp:88-99).  There is no peer-level
guard: the style's remove operation runs first; on success the peer takes
ownership of whatever came back, releases the `peer` slot of that
resource, and releases (without deleting) the java peer reference. -/
def removeFromMap (p : Source) (c : Container) : StepResult :=
  match removeResource c p.sourceId with
  | .error e => { err := some e, peer := p, container := c, events := [] }
  | .ok (r, c1) =>
    -- `ownedSource = std::move(coreSource)` (destroys any previous owned source)
    let p1 : Source := { p with ownedSource := some r }
    if r.peerSlot then
      -- `util::any_cast<std::unique_ptr<Source>>(&(ownedSource->peer))->release()`
      let p2 : Source := { p1 with ownedSource := some { r with peerSlot := false } }
      -- `javaPeer.release()`
      let p3 : Source := { p2 with javaPeer := none }
      { err := none, peer := p3, container := c1
        events := [.resourceRemoved, .backrefCleared, .proxyRefReleased] }
    else
      -- `any_cast` returns null when the slot holds no unique_ptr; the
      -- `->release()` call is undefined behaviour, modelled as fatal
      { err := some .fatalPeerSlotEmpty, peer := p1, container := c1
        events := [.resourceRemoved] }

/-- `Source::~Source` (source.cpp:33-48).  Guard on line 41: only when the
peer does not own the core source and the java peer global reference is
live does it zero the proxy's `nativePtr` field and then reset (release
and delete) the strong reference. -/
def destroy (p : Source) : Source × List Ev :=
  if p.ownedSource.isNone && p.javaPeer.isSome then
    ({ p with javaPeer := none }, [.handleZeroed, .strongRefReleased])
  else
    (p, [])

/-- `Source::getId` (source.cpp:54-56). -/
def getId (r : CoreResource) : String := r.sid

/-- `Source::getAttribution` (source.cpp:58-61): returns the attribution
when set, and the empty jni string otherwise. -/
def getAttribution (r : CoreResource) : String :=
  match r.attribution with
  | some a => a
  | none => ""

/-- Host-runtime world state for `getJavaPeer`: the next fresh proxy
object id and how many proxies this peer has constructed via
`createJavaPeer`. -/
structure JWorld where
  nextId : Nat
  created : Nat
deriving Repr, DecidableEq

/-- `Source::getJavaPeer` (source.cpp:110-116): when the `javaPeer` field
is null, `createJavaPeer` constructs a fresh java peer object and a global
reference to it is cached; otherwise the cached object is returned. -/
def getJavaPeer (p : Source) (w : JWorld) : Nat × Source × JWorld :=
  match p.javaPeer with
  | some j => (j, p, w)
  | none =>
    (w.nextId, { p with javaPeer := some w.nextId },
     { nextId := w.nextId + 1, created := w.created + 1 })

/-- Driver for the alternating lifecycle `construct → attach → detach →
attach → …`: starting from a freshly constructed peer, each step performs
`addToMap` when the peer owns its resource and `removeFromMap` otherwise. -/
def altSteps : Nat → Source → Nat → Container → Source × Container
  | 0, p, _, c => (p, c)
  | n + 1, p, obj, c =>
    if p.ownedSource.isSome then
      let s := addToMap p obj c
      altSteps n s.peer obj s.container
    else
      let s := removeFromMap p c
      altSteps n s.peer obj s.container

/-- Invariant I1 at an observation point: the core resource has exactly
one owner — the peer (via `ownedSource`) when detached, the container
(under the peer's identity) when attached, never both, never neither. -/
def exactlyOneOwner (p : Source) (c : Container) : Prop :=
  (p.ownedSource.isSome = true ∧ containsId c p.sourceId = false) ∨
  (p.ownedSource = none ∧ containsId c p.sourceId = true)

end MapboxSource

namespace MapboxSource

/-! Helper lemmas about the container operations. -/

lemma containsId_append (c : Container) (r : CoreResource) (i : String) :
    containsId (c ++ [r]) i = (containsId c i || (r.sid == i)) := by
  induction c with
  | nil => simp [containsId]
  | cons x xs ih => simp [containsId, ih, Bool.or_assoc]

lemma removeResource_of_not_contains (c : Container) (i : String)
    (h : containsId c i = false) :
    removeResource c i = .error .notAttached := by
  induction c with
  | nil => rfl
  | cons x xs ih =>
    simp [containsId, Bool.or_eq_false_iff] at h
    simp [removeResource, h.1, ih h.2]

lemma removeResource_append_self (c : Container) (r : CoreResource)
    (h : containsId c r.sid = false) :
    removeResource (c ++ [r]) r.sid = .ok (r, c) := by
  induction c with
  | nil => simp [removeResource]
  | cons x xs ih =>
    simp [containsId, Bool.or_eq_false_iff] at h
    simp [removeResource, h.1, ih h.2]

lemma setPeerSlot_of_not_contains (c : Container) (i : String) (b : Bool)
    (h : containsId c i = false) :
    setPeerSlot c i b = c := by
  induction c with
  | nil => rfl
  | cons x xs ih =>
    simp [containsId, Bool.or_eq_false_iff] at h
    obtain ⟨h1, h2⟩ := h
    simp [setPeerSlot, h1]
    simpa [setPeerSlot] using ih h2

lemma setPeerSlot_append_self (c : Container) (r : CoreResource) (b : Bool)
    (h : containsId c r.sid = false) :
    setPeerSlot (c ++ [r]) r.sid b = c ++ [{ r with peerSlot := b }] := by
  have h1 := setPeerSlot_of_not_contains c r.sid b h
  simp [setPeerSlot] at h1 ⊢
  simp [h1]

end MapboxSource

namespace MapboxSource

/-- C2: for every peer in the Attached state (one whose `ownedSource` is
null because ownership moved to the container), `addToMap` fails with the
"Cannot add source twice" error (`AlreadyAttachedError`) and leaves the
peer and the container unchanged, performing no insertion, no
back-reference installation and no proxy-reference upgrade. -/
theorem attach_on_attached_fails_unchanged (p : Source) (obj : Nat) (c : Container)
    (h : p.ownedSource = none) :
    addToMap p obj c =
      { err := some .alreadyAttached, peer := p, container := c, events := [] } := by
  simp [addToMap, h]

/-- Witness for C2 at a concrete attached peer. -/
theorem attach_on_attached_fails_unchanged_witness :
    addToMap { ownedSource := none, sourceId := "terrain", javaPeer := some 7 } 9
        [{ iid := 1, sid := "terrain", attribution := none, peerSlot := true }] =
      { err := some .alreadyAttached
        peer := { ownedSource := none, sourceId := "terrain", javaPeer := some 7 }
        container := [{ iid := 1, sid := "terrain", attribution := none, peerSlot := true }]
        events := [] } :=
  attach_on_attached_fails_unchanged _ 9 _ rfl

/-- C10: `getAttribution` never returns an absent value: when the core
source has no attribution it returns the empty string, otherwise it
returns exactly the attribution text. -/
theorem getAttribution_total (r : CoreResource) :
    (r.attribution = none → getAttribution r = "") ∧
    (∀ a, r.attribution = some a → getAttribution r = a) := by
  refine ⟨fun h => ?_, fun a h => ?_⟩ <;> simp [getAttribution, h]

/-- Witness for C10 at a resource without and a resource with attribution. -/
theorem getAttribution_total_witness :
    getAttribution { iid := 1, sid := "terrain", attribution := none, peerSlot := false } = "" ∧
    getAttribution { iid := 2, sid := "hills", attribution := some "(c) osm", peerSlot := false } =
      "(c) osm" :=
  ⟨(getAttribution_total _).1 rfl, (getAttribution_total _).2 "(c) osm" rfl⟩

/-- C4 (failing-input evaluation): attaching a detached peer whose
identity is already present in the container raises
`ContainerConflictError`, but the failure is not atomic: ownership left
the peer before the container call (`releaseCoreSource()` builds the
argument first), so after the exception the peer no longer owns its core
source — the resource was destroyed with the unwound argument.  The
container itself is unchanged. -/
theorem attach_conflict_loses_ownership :
    (addToMap (construct 2 "terrain" none) 7
        [{ iid := 1, sid := "terrain", attribution := none, peerSlot := true }]).err =
      some .containerConflict ∧
    (addToMap (construct 2 "terrain" none) 7
        [{ iid := 1, sid := "terrain", attribution := none, peerSlot := true }]).peer.ownedSource =
      none ∧
    (addToMap (construct 2 "terrain" none) 7
        [{ iid := 1, sid := "terrain", attribution := none, peerSlot := true }]).container =
      [{ iid := 1, sid := "terrain", attribution := none, peerSlot := true }] := by
  refine ⟨?_, ?_, ?_⟩ <;> rfl

/-- C6: the destructor performs the proxy-handle-invalidation step iff the
peer does not own the core source and a live strong proxy reference
exists; in particular a peer that still owns its core source takes no
proxy-side action at all. -/
theorem destroy_guard_iff (p : Source) :
    ((destroy p).2.contains Ev.handleZeroed = true ↔
      p.ownedSource = none ∧ p.javaPeer.isSome = true) ∧
    (p.ownedSource.isSome = true → destroy p = (p, [])) := by
  obtain ⟨os, sid, jp⟩ := p
  cases os <;> cases jp <;> simp [destroy]

/-- Witness for C6: an attached peer with a live proxy reference performs
the invalidation; a freshly constructed (owning) peer performs nothing. -/
theorem destroy_guard_iff_witness :
    (destroy { ownedSource := none, sourceId := "terrain", javaPeer := some 5 }).2.contains
      Ev.handleZeroed = true ∧
    destroy (construct 1 "terrain" none) = (construct 1 "terrain" none, []) :=
  ⟨(destroy_guard_iff _).1.mpr ⟨rfl, rfl⟩, (destroy_guard_iff _).2 rfl⟩

/-- C7: native-initiated teardown of an attached peer with a live strong
proxy reference zeroes the proxy's `nativePtr` field before releasing the
strong reference, and running the teardown twice still zeroes the handle
exactly once (the second run sees a null `javaPeer` and does nothing). -/
theorem destroy_zeroes_handle_once (p : Source) (j : Nat)
    (h1 : p.ownedSource = none) (h2 : p.javaPeer = some j) :
    (destroy p).2 = [Ev.handleZeroed, Ev.strongRefReleased] ∧
    ((destroy p).2 ++ (destroy (destroy p).1).2).count Ev.handleZeroed = 1 := by
  simp [destroy, h1, h2, List.count_cons]

/-- Witness for C7 at a concrete attached peer. -/
theorem destroy_zeroes_handle_once_witness :
    (destroy { ownedSource := none, sourceId := "terrain", javaPeer := some 5 }).2 =
      [Ev.handleZeroed, Ev.strongRefReleased] ∧
    ((destroy { ownedSource := none, sourceId := "terrain", javaPeer := some 5 }).2 ++
        (destroy
          (destroy { ownedSource := none, sourceId := "terrain", javaPeer := some 5 }).1).2).count
      Ev.handleZeroed = 1 :=
  destroy_zeroes_handle_once _ 5 rfl rfl

end MapboxSource

namespace MapboxSource

/-- C3 (counterexample): `removeFromMap` has no peer-level guard.  A
detached peer (here owning instance 2 under id "terrain") whose identity
happens to be held by the container (instance 1, attached by another
peer) does not fail at all: the call succeeds, removes the container's
resource, destroys the peer's own previously owned resource and leaves
the peer owning the other instance. -/
theorem detach_on_detached_counterexample :
    (removeFromMap
        { ownedSource := some { iid := 2, sid := "terrain", attribution := none, peerSlot := false }
          sourceId := "terrain"
          javaPeer := none }
        [{ iid := 1, sid := "terrain", attribution := none, peerSlot := true }]).err = none ∧
    (removeFromMap
        { ownedSource := some { iid := 2, sid := "terrain", attribution := none, peerSlot := false }
          sourceId := "terrain"
          javaPeer := none }
        [{ iid := 1, sid := "terrain", attribution := none, peerSlot := true }]).container = [] ∧
    (removeFromMap
        { ownedSource := some { iid := 2, sid := "terrain", attribution := none, peerSlot := false }
          sourceId := "terrain"
          javaPeer := none }
        [{ iid := 1, sid := "terrain", attribution := none, peerSlot := true }]).peer.ownedSource =
      some { iid := 1, sid := "terrain", attribution := none, peerSlot := false } := by
  refine ⟨rfl, rfl, rfl⟩

/-- C3 (amended): for every detached peer, when the container does not
hold the peer's identity, `removeFromMap` fails with `NotAttachedError`
(propagated from the container's remove operation) and leaves the peer
and the container unchanged. -/
theorem detach_when_absent_fails_unchanged (p : Source) (c : Container)
    (_h1 : p.ownedSource.isSome = true) (h2 : containsId c p.sourceId = false) :
    removeFromMap p c =
      { err := some .notAttached, peer := p, container := c, events := [] } := by
  simp [removeFromMap, removeResource_of_not_contains c p.sourceId h2]

/-- Witness for the amended C3 at a freshly constructed peer and an empty
container. -/
theorem detach_when_absent_fails_unchanged_witness :
    removeFromMap (construct 2 "terrain" none) [] =
      { err := some .notAttached, peer := construct 2 "terrain" none, container := [],
        events := [] } :=
  detach_when_absent_fails_unchanged (construct 2 "terrain" none) [] rfl rfl

/-! Event-trace characterizations of the two transitions, used for the
ordering claim. -/

lemma addToMap_events_of_owned (p : Source) (obj : Nat) (c : Container) (r : CoreResource)
    (h1 : p.ownedSource = some r) (h2 : containsId c r.sid = false) :
    (addToMap p obj c).events =
      [Ev.resourceInserted, Ev.backrefInstalled, Ev.proxyRefUpgraded] := by
  simp [addToMap, h1, addResource, h2]

lemma removeFromMap_events_of_ok (p : Source) (c : Container)
    (h : (removeFromMap p c).err = none) :
    (removeFromMap p c).events =
      [Ev.resourceRemoved, Ev.backrefCleared, Ev.proxyRefReleased] := by
  unfold removeFromMap at h ⊢
  cases hr : removeResource c p.sourceId with
  | error e => rw [hr] at h; simp at h
  | ok pr =>
    obtain ⟨r, c1⟩ := pr
    rw [hr] at h
    by_cases hs : r.peerSlot
    · simp [hs]
    · simp [hs] at h

/-- C8 (counterexample): in `removeFromMap` the container's removal
completes first and the back-reference is cleared only afterwards, the
opposite of the claimed order.  Evaluated on a concrete attached peer:
the detach succeeds and the index of the back-reference-clearing event is
not smaller than the index of the completed removal. -/
theorem detach_order_counterexample :
    (removeFromMap { ownedSource := none, sourceId := "terrain", javaPeer := some 7 }
        [{ iid := 1, sid := "terrain", attribution := none, peerSlot := true }]).err = none ∧
    ¬ ((removeFromMap { ownedSource := none, sourceId := "terrain", javaPeer := some 7 }
          [{ iid := 1, sid := "terrain", attribution := none, peerSlot := true }]).events.indexOf
            Ev.backrefCleared <
        (removeFromMap { ownedSource := none, sourceId := "terrain", javaPeer := some 7 }
          [{ iid := 1, sid := "terrain", attribution := none, peerSlot := true }]).events.indexOf
            Ev.resourceRemoved) := by
  refine ⟨rfl, by decide⟩

/-- C8 (amended): during a successful attach the resource is inserted
into the container before the back-reference is installed; during a
successful detach the removal from the container completes before the
back-reference is cleared (the clearing still precedes the end of the
call, whose last action releases the proxy reference). -/
theorem attach_detach_event_order (p : Source) (obj : Nat) (c : Container) (r : CoreResource)
    (q : Source) (d : Container)
    (h1 : p.ownedSource = some r) (h2 : containsId c r.sid = false)
    (h3 : (removeFromMap q d).err = none) :
    ((addToMap p obj c).events.indexOf Ev.resourceInserted <
      (addToMap p obj c).events.indexOf Ev.backrefInstalled) ∧
    ((removeFromMap q d).events.indexOf Ev.resourceRemoved <
      (removeFromMap q d).events.indexOf Ev.backrefCleared) := by
  rw [addToMap_events_of_owned p obj c r h1 h2, removeFromMap_events_of_ok q d h3]
  exact ⟨by decide, by decide⟩

/-- Witness for the amended C8 at a concrete detached peer (attach half)
and a concrete attached peer (detach half). -/
theorem attach_detach_event_order_witness :
    ((addToMap (construct 2 "terrain" none) 7 []).events.indexOf Ev.resourceInserted <
      (addToMap (construct 2 "terrain" none) 7 []).events.indexOf Ev.backrefInstalled) ∧
    ((removeFromMap { ownedSource := none, sourceId := "terrain", javaPeer := some 7 }
        [{ iid := 1, sid := "terrain", attribution := none, peerSlot := true }]).events.indexOf
          Ev.resourceRemoved <
      (removeFromMap { ownedSource := none, sourceId := "terrain", javaPeer := some 7 }
        [{ iid := 1, sid := "terrain", attribution := none, peerSlot := true }]).events.indexOf
          Ev.backrefCleared) :=
  attach_detach_event_order (construct 2 "terrain" none) 7 []
    { iid := 2, sid := "terrain", attribution := none, peerSlot := false }
    { ownedSource := none, sourceId := "terrain", javaPeer := some 7 }
    [{ iid := 1, sid := "terrain", attribution := none, peerSlot := true }]
    rfl rfl rfl

/-- Java-peer creation trace for the C9 counterexample: construct a peer,
let `getJavaPeer` create and cache proxy 100, attach using that proxy,
detach (which releases the cached reference), then call `getJavaPeer`
again. -/
def detachRecreateTrace : Nat × Source × JWorld :=
  let g1 := getJavaPeer (construct 2 "terrain" none) { nextId := 100, created := 0 }
  let s2 := addToMap g1.2.1 g1.1 []
  let s3 := removeFromMap s2.peer s2.container
  getJavaPeer s3.peer g1.2.2

/-- C9 (counterexample): along attach → detach → getJavaPeer the peer
constructs a second java proxy for the same logical resource:
`removeFromMap` nulls the cached `javaPeer` reference, so the later
`getJavaPeer` call runs `createJavaPeer` again — two creations in total,
and the returned proxy (101) differs from the first one (100). -/
theorem proxy_recreated_after_detach :
    detachRecreateTrace.2.2.created = 2 ∧ detachRecreateTrace.1 = 101 :=
  ⟨rfl, rfl⟩

/-- C9 (amended): while a java proxy reference is cached, `getJavaPeer`
returns the cached proxy and constructs nothing new — the peer and the
host-runtime world are untouched. -/
theorem getJavaPeer_cached (p : Source) (w : JWorld) (j : Nat)
    (h : p.javaPeer = some j) :
    getJavaPeer p w = (j, p, w) := by
  simp [getJavaPeer, h]

/-- Witness for the amended C9 at a concrete peer holding a cached proxy. -/
theorem getJavaPeer_cached_witness :
    getJavaPeer { ownedSource := none, sourceId := "terrain", javaPeer := some 5 }
        { nextId := 100, created := 3 } =
      (5, { ownedSource := none, sourceId := "terrain", javaPeer := some 5 },
        { nextId := 100, created := 3 }) :=
  getJavaPeer_cached _ { nextId := 100, created := 3 } 5 rfl

end MapboxSource

namespace MapboxSource

/-! Exact characterizations of a successful attach and of the matching
detach, shared by the round-trip and the invariant proofs. -/

lemma addToMap_ok (p : Source) (obj : Nat) (c : Container) (r : CoreResource)
    (h1 : p.ownedSource = some r) (h2 : containsId c r.sid = false) :
    addToMap p obj c =
      { err := none
        peer := { p with ownedSource := none, javaPeer := some obj }
        container := c ++ [{ r with peerSlot := true }]
        events := [Ev.resourceInserted, Ev.backrefInstalled, Ev.proxyRefUpgraded] } := by
  simp [addToMap, h1, addResource, h2, setPeerSlot_append_self c r true h2]

lemma removeFromMap_ok (p : Source) (c : Container) (r : CoreResource)
    (h1 : p.sourceId = r.sid) (h2 : containsId c r.sid = false) :
    removeFromMap p (c ++ [{ r with peerSlot := true }]) =
      { err := none
        peer := { p with ownedSource := some { r with peerSlot := false }, javaPeer := none }
        container := c
        events := [Ev.resourceRemoved, Ev.backrefCleared, Ev.proxyRefReleased] } := by
  have hrr : removeResource (c ++ [{ r with peerSlot := true }]) p.sourceId =
      .ok ({ r with peerSlot := true }, c) := by
    rw [h1]
    exact removeResource_append_self c { r with peerSlot := true } h2
  simp [removeFromMap, hrr]

/-- C5: for every detached peer, a successful attach followed immediately
by detach on the same container restores a state observably identical to
the state before attach: both operations succeed, the peer is detached
again and owns the same core-source instance (same `iid`), and `getId` /
`getAttribution` return the same values as before; the container is also
back to its previous contents. -/
theorem attach_detach_round_trip (p : Source) (r : CoreResource) (obj : Nat) (c : Container)
    (h1 : p.ownedSource = some r) (h2 : p.sourceId = r.sid)
    (h3 : containsId c r.sid = false) :
    (addToMap p obj c).err = none ∧
    (removeFromMap (addToMap p obj c).peer (addToMap p obj c).container).err = none ∧
    (removeFromMap (addToMap p obj c).peer
        (addToMap p obj c).container).peer.ownedSource.isSome = true ∧
    (removeFromMap (addToMap p obj c).peer (addToMap p obj c).container).peer.ownedSource.map
        (fun x => x.iid) = some r.iid ∧
    (removeFromMap (addToMap p obj c).peer (addToMap p obj c).container).peer.ownedSource.map
        getId = some (getId r) ∧
    (removeFromMap (addToMap p obj c).peer (addToMap p obj c).container).peer.ownedSource.map
        getAttribution = some (getAttribution r) ∧
    (removeFromMap (addToMap p obj c).peer (addToMap p obj c).container).container = c := by
  simp only [addToMap_ok p obj c r h1 h3]
  simp only [removeFromMap_ok { p with ownedSource := none, javaPeer := some obj } c r h2 h3]
  simp [getId, getAttribution]

/-- Witness for C5 at a concrete freshly constructed peer with an
attribution, attached to and detached from an empty container. -/
theorem attach_detach_round_trip_witness :
    (addToMap (construct 2 "terrain" (some "(c) osm")) 7 []).err = none ∧
    (removeFromMap (addToMap (construct 2 "terrain" (some "(c) osm")) 7 []).peer
        (addToMap (construct 2 "terrain" (some "(c) osm")) 7 []).container).err = none ∧
    (removeFromMap (addToMap (construct 2 "terrain" (some "(c) osm")) 7 []).peer
        (addToMap (construct 2 "terrain" (some "(c) osm")) 7
          []).container).peer.ownedSource.isSome = true ∧
    (removeFromMap (addToMap (construct 2 "terrain" (some "(c) osm")) 7 []).peer
        (addToMap (construct 2 "terrain" (some "(c) osm")) 7
          []).container).peer.ownedSource.map (fun x => x.iid) = some 2 ∧
    (removeFromMap (addToMap (construct 2 "terrain" (some "(c) osm")) 7 []).peer
        (addToMap (construct 2 "terrain" (some "(c) osm")) 7
          []).container).peer.ownedSource.map getId = some (getId
      { iid := 2, sid := "terrain", attribution := some "(c) osm", peerSlot := false }) ∧
    (removeFromMap (addToMap (construct 2 "terrain" (some "(c) osm")) 7 []).peer
        (addToMap (construct 2 "terrain" (some "(c) osm")) 7
          []).container).peer.ownedSource.map getAttribution = some (getAttribution
      { iid := 2, sid := "terrain", attribution := some "(c) osm", peerSlot := false }) ∧
    (removeFromMap (addToMap (construct 2 "terrain" (some "(c) osm")) 7 []).peer
        (addToMap (construct 2 "terrain" (some "(c) osm")) 7 []).container).container = [] :=
  attach_detach_round_trip (construct 2 "terrain" (some "(c) osm"))
    { iid := 2, sid := "terrain", attribution := some "(c) osm", peerSlot := false } 7 []
    rfl rfl rfl

end MapboxSource

namespace MapboxSource

/-- Closed form of the alternating lifecycle: starting from a freshly
constructed peer and a container not holding its identity, even prefixes
end in the detached start state and odd prefixes end in the attached
state; the same alternation holds starting from the attached state. -/
lemma altSteps_alternation (iid obj : Nat) (sid : String) (attr : Option String)
    (c0 : Container) (h : containsId c0 sid = false) (n : Nat) :
    (altSteps n (construct iid sid attr) obj c0 =
      if n % 2 = 0 then (construct iid sid attr, c0)
      else ({ ownedSource := none, sourceId := sid, javaPeer := some obj },
        c0 ++ [{ iid := iid, sid := sid, attribution := attr, peerSlot := true }])) ∧
    (altSteps n { ownedSource := none, sourceId := sid, javaPeer := some obj } obj
        (c0 ++ [{ iid := iid, sid := sid, attribution := attr, peerSlot := true }]) =
      if n % 2 = 0 then
        ({ ownedSource := none, sourceId := sid, javaPeer := some obj },
          c0 ++ [{ iid := iid, sid := sid, attribution := attr, peerSlot := true }])
      else (construct iid sid attr, c0)) := by
  have hA : addToMap
      { ownedSource := some { iid := iid, sid := sid, attribution := attr, peerSlot := false }
        sourceId := sid
        javaPeer := none } obj c0 =
      { err := none
        peer := { ownedSource := none, sourceId := sid, javaPeer := some obj }
        container := c0 ++ [{ iid := iid, sid := sid, attribution := attr, peerSlot := true }]
        events := [Ev.resourceInserted, Ev.backrefInstalled, Ev.proxyRefUpgraded] } :=
    addToMap_ok _ obj c0
      { iid := iid, sid := sid, attribution := attr, peerSlot := false } rfl h
  have hD : removeFromMap { ownedSource := none, sourceId := sid, javaPeer := some obj }
      (c0 ++ [{ iid := iid, sid := sid, attribution := attr, peerSlot := true }]) =
      { err := none
        peer := construct iid sid attr
        container := c0
        events := [Ev.resourceRemoved, Ev.backrefCleared, Ev.proxyRefReleased] } :=
    removeFromMap_ok { ownedSource := none, sourceId := sid, javaPeer := some obj } c0
      { iid := iid, sid := sid, attribution := attr, peerSlot := false } rfl h
  induction n with
  | zero => exact ⟨rfl, rfl⟩
  | succ n ih =>
    constructor
    · have e1 : altSteps (n + 1) (construct iid sid attr) obj c0 =
          altSteps n { ownedSource := none, sourceId := sid, javaPeer := some obj } obj
            (c0 ++ [{ iid := iid, sid := sid, attribution := attr, peerSlot := true }]) := by
        conv_lhs => rw [altSteps]
        simp [construct, hA]
      rw [e1, ih.2]
      rcases Nat.mod_two_eq_zero_or_one n with h2 | h2
      · have h3 : (n + 1) % 2 = 1 := by omega
        simp [h2, h3]
      · have h3 : (n + 1) % 2 = 0 := by omega
        simp [h2, h3]
    · have e2 : altSteps (n + 1) { ownedSource := none, sourceId := sid, javaPeer := some obj }
          obj (c0 ++ [{ iid := iid, sid := sid, attribution := attr, peerSlot := true }]) =
          altSteps n (construct iid sid attr) obj c0 := by
        conv_lhs => rw [altSteps]
        simp [hD]
      rw [e2, ih.1]
      rcases Nat.mod_two_eq_zero_or_one n with h2 | h2
      · have h3 : (n + 1) % 2 = 1 := by omega
        simp [h2, h3]
      · have h3 : (n + 1) % 2 = 0 := by omega
        simp [h2, h3]

/-- C1: along every alternating lifecycle `construct → attach → detach →
attach → …` run against a container that does not yet hold the peer's
identity, Invariant I1 holds at every observation point: the core
resource has exactly one owner — the peer while detached, the container
while attached, never both and never neither. -/
theorem lifecycle_exactly_one_owner (iid obj : Nat) (sid : String) (attr : Option String)
    (c0 : Container) (h : containsId c0 sid = false) (n : Nat) :
    exactlyOneOwner (altSteps n (construct iid sid attr) obj c0).1
      (altSteps n (construct iid sid attr) obj c0).2 := by
  rw [(altSteps_alternation iid obj sid attr c0 h n).1]
  rcases Nat.mod_two_eq_zero_or_one n with h2 | h2
  · simp only [h2, if_pos]
    exact Or.inl ⟨rfl, h⟩
  · have h3 : ¬ (n % 2 = 0) := by omega
    simp only [h2, h3, if_neg, if_false]
    exact Or.inr ⟨rfl, by simp [containsId_append, h]⟩

/-- Witness for C1 after five alternating operations from a concrete
construction against the empty container. -/
theorem lifecycle_exactly_one_owner_witness :
    exactlyOneOwner (altSteps 5 (construct 1 "terrain" none) 7 []).1
      (altSteps 5 (construct 1 "terrain" none) 7 []).2 :=
  lifecycle_exactly_one_owner 1 7 "terrain" none [] rfl 5

end MapboxSource
